import Mathlib

/-!
Shallow embedding of the scraping core of `src/scraper.py` (functions
`normalize_img_url`, `clean_text`, `detect_recaptcha`,
`solve_recaptcha_2captcha` and `extract_aliexpress_product`).

Python strings are modelled as lists of Unicode code points (`PyStr`).
Browser state observed by one attempt (query results, page title and URL,
element text contents, attribute values) is supplied by an environment
value; a `none` entry in an element list models a DOM call that raises,
which in the source aborts the surrounding `try` block.  Side effects that
do not influence the returned data (printing, sleeping, scrolling, the
description-tab click, which is wrapped in its own try/except) are not
modelled.  Faults in unguarded page interactions outside the extraction
logic (the scroll loop, `browser.close`) are outside the model.
-/

/-- A Python string, as its list of Unicode code points. -/
abbrev PyStr := List Nat

/-- Code points of a Lean string literal (used to write `PyStr` constants). -/
def pystr (s : String) : PyStr := s.data.map Char.toNat

/-- The single-quote character, used inside CSS selector literals. -/
def squot : PyStr := [39]

/-- Python `str.isspace` on one code point, for the whitespace classes that
`str.strip` and the regex `\s` treat as whitespace (ASCII range). -/
def isPySpace (n : Nat) : Bool :=
  n == 32 || n == 9 || n == 10 || n == 13 || n == 11 || n == 12

/-- Python `str.lower` on one ASCII code point (the scraped keywords and the
brand name are ASCII, so only the ASCII case fold is relevant). -/
def lowerCode (n : Nat) : Nat := if 65 ≤ n ∧ n ≤ 90 then n + 32 else n

/-- Python `str.lower`. -/
def plower (s : PyStr) : PyStr := s.map lowerCode

/-- Python `str.lstrip()`. -/
def ltrim (s : PyStr) : PyStr := s.dropWhile isPySpace

/-- Python `str.rstrip()`. -/
def rtrim (s : PyStr) : PyStr := (s.reverse.dropWhile isPySpace).reverse

/-- Python `str.strip()`. -/
def pstrip (s : PyStr) : PyStr := rtrim (ltrim s)

/-- Python `needle in hay` (substring test). -/
def hasSub (needle : PyStr) : PyStr → Bool
  | [] => needle.isPrefixOf []
  | c :: rest => needle.isPrefixOf (c :: rest) || hasSub needle rest

/-- Python `s.startswith(pre)`. -/
def pyStartswith (s pre : PyStr) : Bool := pre.isPrefixOf s

/-- `normalize_img_url` (src/scraper.py lines 131-139). -/
def normalize_img_url (src : PyStr) : PyStr :=
  if src = [] then []
  else
    let s := pstrip src
    if pyStartswith s (pystr "//") then pystr "https:" ++ s
    else if pyStartswith s (pystr "/") then pystr "https://www.aliexpress.com" ++ s
    else s

/-- Target-URL normalization at the top of `extract_aliexpress_product`
(src/scraper.py lines 160-162): `url.split('#')[0].strip()`, then prefix
the scheme when the result does not start with `"http"`. -/
def normalize_target (url : PyStr) : PyStr :=
  let base := pstrip (url.takeWhile (fun c => c != 35))
  if pyStartswith base (pystr "http") then base else pystr "https://" ++ base

/-- One step of the tag stripper below: `inTag` records whether the scan is
inside `<...>` markup. -/
def isTagOpener : PyStr → Bool
  | [] => false
  | c :: _ =>
    (decide (65 ≤ c) && decide (c ≤ 90)) || (decide (97 ≤ c) && decide (c ≤ 122)) ||
      c == 47 || c == 33 || c == 63

/-- Models `BeautifulSoup(text, "html.parser").get_text(" ")` for tag-shaped
markup: a `<` that opens markup (followed by a letter, `/`, `!` or `?`, the
html.parser rule) starts a tag, everything up to the closing `>` is replaced
by one separating space (`get_text` joins the text nodes with `" "`); a `<`
that does not open markup is kept as text, as html.parser keeps it.  Entity
decoding and script/style contents are not modelled. -/
def stripTagsGo : Bool → PyStr → PyStr
  | true, [] => []
  | true, c :: rest => if c == 62 then stripTagsGo false rest else stripTagsGo true rest
  | false, [] => []
  | false, c :: rest =>
    if c == 60 && isTagOpener rest then 32 :: stripTagsGo true rest
    else c :: stripTagsGo false rest

/-- Markup removal performed by `clean_text` via BeautifulSoup. -/
def stripTags (s : PyStr) : PyStr := stripTagsGo false s

/-- `re.sub(r"\s+", " ", text)`: collapse every whitespace run to one space. -/
def collapseGo : Bool → PyStr → PyStr
  | _, [] => []
  | prev, c :: rest =>
    if isPySpace c then
      (if prev then collapseGo true rest else 32 :: collapseGo true rest)
    else c :: collapseGo false rest

/-- Whitespace-run collapsing performed by `clean_text`. -/
def collapseWs (s : PyStr) : PyStr := collapseGo false s

/-- `clean_text` (src/scraper.py lines 142-147): strip markup, collapse
whitespace runs, trim the ends; empty input is returned unchanged. -/
def clean_text (t : PyStr) : PyStr :=
  if t = [] then [] else pstrip (collapseWs (stripTags t))

/-- The page state `detect_recaptcha` inspects: per-selector element presence
(`query` is `true` when `page.query_selector` finds a node without raising;
an exception there is caught and counts as no hit), the page title and the
page URL. -/
structure BotPage where
  query : PyStr → Bool
  title : PyStr
  url : PyStr

/-- The six structural block markers of `detect_recaptcha`
(src/scraper.py lines 44-51). -/
def indicators : List PyStr :=
  [ pystr "iframe[src*=" ++ squot ++ pystr "recaptcha" ++ squot ++ pystr "]",
    pystr "iframe[src*=" ++ squot ++ pystr "google.com/recaptcha" ++ squot ++ pystr "]",
    pystr ".g-recaptcha",
    pystr "#captcha-verify",
    pystr ".baxia-punish",
    pystr "[id*=" ++ squot ++ pystr "captcha" ++ squot ++ pystr "]" ]

/-- Keywords searched in the lowercased page title (src/scraper.py line 62). -/
def block_title_keywords : List PyStr :=
  [pystr "verify", pystr "captcha", pystr "robot", pystr "blocked", pystr "security"]

/-- Keywords searched in the lowercased page URL (src/scraper.py line 65). -/
def block_url_keywords : List PyStr :=
  [pystr "baxia", pystr "punish", pystr "captcha", pystr "verify"]

/-- `detect_recaptcha` (src/scraper.py lines 43-69): any structural marker,
then any keyword in the lowercased title, then any keyword in the lowercased
URL; `true` means the page is classified as blocked. -/
def detect_recaptcha (pg : BotPage) : Bool :=
  indicators.any (fun sel => pg.query sel)
    || block_title_keywords.any (fun kw => hasSub kw (plower pg.title))
    || block_url_keywords.any (fun kw => hasSub kw (plower pg.url))

/-- `TWO_CAPTCHA_API_KEY` (src/scraper.py line 78): the stub ships with no
key configured. -/
def TWO_CAPTCHA_API_KEY : PyStr := pystr ""

/-- The ordered title locator chain (src/scraper.py lines 264-271). -/
def title_selectors : List PyStr :=
  [ pystr "[data-pl=" ++ squot ++ pystr "product-title" ++ squot ++ pystr "]",
    pystr ".product-title-text",
    pystr ".title--wrap--UUHae_g h1",
    pystr "h1.pdp-title",
    pystr "#root h1",
    pystr "h1" ]

/-- The title acceptance test of src/scraper.py line 274:
`candidate and candidate.lower().strip() != "aliexpress"` — the candidate is
truthy (non-empty) and its lowercased, stripped form differs from the bare
brand name. -/
def acceptTitle (candidate : PyStr) : Bool :=
  !(candidate == []) && !(pstrip (plower candidate) == pystr "aliexpress")

/-- `safe_query_text` (src/scraper.py lines 259-261): the stripped text
content of the first node matching the selector, or the empty string when no
node matches.  `q` is the rendered page: the raw `text_content()` result per
selector, `none` when `query_selector` returns no node. -/
def safe_query_text (q : PyStr → Option PyStr) (sel : PyStr) : PyStr :=
  match q sel with
  | some t => pstrip t
  | none => []

/-- The title loop of src/scraper.py lines 263-277: first selector whose
candidate passes `acceptTitle` wins; otherwise the title stays empty. -/
def findTitleGo (q : PyStr → Option PyStr) : List PyStr → PyStr
  | [] => []
  | sel :: rest =>
    let candidate := safe_query_text q sel
    if acceptTitle candidate then candidate else findTitleGo q rest

/-- Title extraction over the full locator chain. -/
def findTitle (q : PyStr → Option PyStr) : PyStr := findTitleGo q title_selectors

/-- The description container as one attempt observes it.  Each list entry is
the value a DOM call yields for one element; a `none` entry models a call
that raises, aborting the surrounding `try` with whatever was accumulated
(a fault in `query_selector_all` itself is a fault before the first
element). -/
structure Container where
  detailParas : List (Option PyStr)
  allParas : List (Option PyStr)
  imgs : List (Option (Option PyStr × Option PyStr))

/-- Python `a or b` on attribute lookups (`None` and `""` are falsy). -/
def pyAttrOr (a b : Option PyStr) : Option PyStr :=
  match a with
  | some t => if t = [] then b else some t
  | none => b

/-- One paragraph loop of src/scraper.py lines 294-304: append each stripped
non-empty text followed by one space; the Bool is `true` when a DOM fault
aborted the loop. -/
def collectParas : List (Option PyStr) → PyStr → PyStr × Bool
  | [], acc => (acc, false)
  | none :: _, acc => (acc, true)
  | some t :: rest, acc =>
    let s := pstrip t
    if s = [] then collectParas rest acc else collectParas rest (acc ++ s ++ [32])

/-- The image loop of src/scraper.py lines 306-311: `src` or lazy `data-src`,
skip falsy values, normalize, keep only URLs containing the CDN marker
`"alicdn"`; the Bool is `true` when a DOM fault aborted the loop. -/
def collectImgs : List (Option (Option PyStr × Option PyStr)) → List PyStr → List PyStr × Bool
  | [], acc => (acc, false)
  | none :: _, acc => (acc, true)
  | some sd :: rest, acc =>
    match pyAttrOr sd.1 sd.2 with
    | some t =>
      if t = [] then collectImgs rest acc
      else
        let n := normalize_img_url t
        if hasSub (pystr "alicdn") n then collectImgs rest (acc ++ [n])
        else collectImgs rest acc
    | none => collectImgs rest acc

/-- `list(dict.fromkeys(images))` (src/scraper.py line 313): drop later
duplicates, keeping the first occurrence of each URL in order. -/
def dedupFirstGo : List PyStr → List PyStr → List PyStr
  | _, [] => []
  | seenAcc, x :: xs =>
    if x ∈ seenAcc then dedupFirstGo seenAcc xs
    else x :: dedupFirstGo (x :: seenAcc) xs

/-- Order-preserving de-duplication, as `list(dict.fromkeys(images))`. -/
def pyDedup (xs : List PyStr) : List PyStr := dedupFirstGo [] xs

/-- The description/image phase of src/scraper.py lines 286-318, inside one
`try`: specific paragraph class first, all paragraphs as fallback when no
text was produced, then the image loop; de-duplication runs only when the
whole block finishes without a fault (a fault leaves the lists as
accumulated so far, the `except` only logs).  The argument is the
`query_selector("#product-description")` outcome: `none` models the call
raising, `some none` a null container, `some (some c)` a found container. -/
def descPhase : Option (Option Container) → PyStr × List PyStr
  | none => ([], [])
  | some none => ([], [])
  | some (some c) =>
    let r1 := collectParas c.detailParas []
    if r1.2 then (r1.1, [])
    else
      let r2 := if r1.1 = [] then collectParas c.allParas [] else r1
      if r2.2 then (r2.1, [])
      else
        let r3 := collectImgs c.imgs []
        if r3.2 then (r2.1, r3.1) else (r2.1, pyDedup r3.1)

/-- Everything one attempt observes from its freshly launched browser:
whether `page.goto` raises, the page state at the two `detect_recaptcha`
calls, what the 2captcha branch would report were a key configured, the
title-selector query results, and the description container outcome. -/
structure AttemptEnv where
  navFails : Bool
  bot1 : BotPage
  bot2 : BotPage
  solveOutcome : Bool
  titleQuery : PyStr → Option PyStr
  containerQ : Option (Option Container)

/-- `solve_recaptcha_2captcha` (src/scraper.py lines 80-125): returns `False`
immediately when no API key is configured — which is the shipped state. -/
def solve_recaptcha_2captcha (env : AttemptEnv) : Bool :=
  if TWO_CAPTCHA_API_KEY = [] then false else env.solveOutcome

/-- The final scrape result (the dict of src/scraper.py lines 322-326). -/
structure ExtractionResult where
  title : PyStr
  description_text : PyStr
  images : List PyStr
deriving DecidableEq, Repr

/-- The canonical empty sentinel `empty_result` (src/scraper.py line 164). -/
def empty_result : ExtractionResult := ⟨[], [], []⟩

/-- One attempt of the loop body (src/scraper.py lines 166-326): `none`
means the attempt failed and the loop continues (navigation fault, block
detected and not solved at either check, or no accepted title); `some`
carries the returned result. -/
def attemptRun (env : AttemptEnv) : Option ExtractionResult :=
  if env.navFails then none
  else if detect_recaptcha env.bot1 && !(solve_recaptcha_2captcha env) then none
  else if detect_recaptcha env.bot2 && !(solve_recaptcha_2captcha env) then none
  else if findTitle env.titleQuery = [] then none
  else
    some ⟨clean_text (findTitle env.titleQuery),
          clean_text (descPhase env.containerQ).1, (descPhase env.containerQ).2⟩

/-- What the orchestrator produced: the returned result, how many
`rotate_tor_circuit` requests were issued, and how many attempts ran. -/
structure ScrapeOutcome where
  result : ExtractionResult
  rotations : Nat
  attempts : Nat
deriving DecidableEq, Repr

/-- The retry loop of src/scraper.py lines 166-329: at most `maxR` attempts,
a rotation request after each failed attempt except the last
(`if attempt < max_retries: rotate_tor_circuit()`), the first successful
attempt returns; exhaustion returns the empty sentinel. -/
def scrapeGo (envs : Nat → AttemptEnv) (maxR : Nat) :
    Nat → Nat → Nat → ScrapeOutcome
  | 0, attempt, rot => ⟨empty_result, rot, attempt - 1⟩
  | r + 1, attempt, rot =>
    match attemptRun (envs attempt) with
    | some res => ⟨res, rot, attempt⟩
    | none => scrapeGo envs maxR r (attempt + 1) (if attempt < maxR then rot + 1 else rot)

/-- `extract_aliexpress_product` (src/scraper.py lines 153-329).  `world b i`
is the environment attempt `i` observes when navigating the normalized
target `b`; the loop starts at attempt 1 with no rotations issued. -/
def extract_aliexpress_product (world : PyStr → Nat → AttemptEnv) (url : PyStr)
    (max_retries : Nat) : ScrapeOutcome :=
  scrapeGo (world (normalize_target url)) max_retries max_retries 1 0

/-- The browsing-context identity fixed by `browser.new_context`
(src/scraper.py lines 184-190): user agent, locale and Accept-Language are
string constants; no viewport and no timezone are passed. -/
structure ContextIdentity where
  user_agent : PyStr
  locale : PyStr
  accept_language : PyStr
  viewport : Option (Nat × Nat)
  timezone_id : Option PyStr
deriving DecidableEq, Repr

/-- The identity the code gives the context created on attempt `attempt`
(the argument mirrors that a fresh context is created per attempt; the
source passes the same constants every time). -/
def new_context_identity (_attempt : Nat) : ContextIdentity :=
  { user_agent := pystr "Mozilla/5.0 (Windows NT 10.0; Win64; x64) AppleWebKit/537.36 (KHTML, like Gecko) Chrome/131.0.0.0 Safari/537.36",
    locale := pystr "en-US",
    accept_language := pystr "en-US,en;q=0.9",
    viewport := none,
    timezone_id := none }

/-! ### Concrete environments used by witnesses and counterexamples -/

/-- A rendered page with no block markers, an innocuous title and a plain
product URL. -/
def cleanBot : BotPage :=
  { query := fun _ => false,
    title := pystr "Tools Store Page",
    url := pystr "https://www.aliexpress.com/item/1005001.html" }

/-- A rendered page whose title carries a block keyword, so
`detect_recaptcha` classifies it as blocked. -/
def blockedBot : BotPage :=
  { query := fun _ => false,
    title := pystr "Captcha Interception",
    url := pystr "https://www.aliexpress.com" }

/-- An attempt that is detected as blocked right after navigation. -/
def envBlocked : AttemptEnv :=
  { navFails := false, bot1 := blockedBot, bot2 := blockedBot, solveOutcome := false,
    titleQuery := fun _ => none, containerQ := none }

/-- An attempt whose page renders clean but matches no title locator. -/
def envNoTitle : AttemptEnv :=
  { navFails := false, bot1 := cleanBot, bot2 := cleanBot, solveOutcome := false,
    titleQuery := fun _ => none, containerQ := some none }

/-- A clean attempt where only the last-resort `h1` locator matches and the
description container is missing: the attempt succeeds with a bare title. -/
def envPartial : AttemptEnv :=
  { navFails := false, bot1 := cleanBot, bot2 := cleanBot, solveOutcome := false,
    titleQuery := fun sel => if sel = pystr "h1" then some (pystr "Cordless Drill 20V") else none,
    containerQ := some none }

/-- A clean attempt whose `h1` text content is literally `"<p>"` (the page
displays an escaped tag): the candidate is non-empty and accepted, but
`clean_text` strips it to the empty string, while the description paragraph
is real text. -/
def envMarkupTitle : AttemptEnv :=
  { navFails := false, bot1 := cleanBot, bot2 := cleanBot, solveOutcome := false,
    titleQuery := fun sel => if sel = pystr "h1" then some (pystr "<p>") else none,
    containerQ := some (some ⟨[some (pystr "Great product.")], [], []⟩) }

/-- A clean attempt whose image loop faults on its third element, after two
identical protocol-relative CDN URLs were collected. -/
def envFaulty : AttemptEnv :=
  { navFails := false, bot1 := cleanBot, bot2 := cleanBot, solveOutcome := false,
    titleQuery := fun sel => if sel = pystr "h1" then some (pystr "Gadget Pro") else none,
    containerQ := some (some
      ⟨[some (pystr "Intro text")], [],
       [some (some (pystr "//ae01.alicdn.com/a.jpg"), none),
        some (some (pystr "//ae01.alicdn.com/a.jpg"), none),
        none]⟩) }

/-! ### Lemmas about trimming and lowercasing -/

theorem dropWhile_dropWhile (p : Nat → Bool) (l : List Nat) :
    List.dropWhile p (List.dropWhile p l) = List.dropWhile p l := by
  induction l with
  | nil => rfl
  | cons a t ih =>
    by_cases h : p a = true
    · simp [List.dropWhile_cons, h, ih]
    · simp [List.dropWhile_cons, h]

theorem dropWhile_map (f : Nat → Nat) (p : Nat → Bool) (h : ∀ n, p (f n) = p n)
    (l : List Nat) :
    List.dropWhile p (List.map f l) = List.map f (List.dropWhile p l) := by
  induction l with
  | nil => rfl
  | cons a t ih =>
    by_cases ha : p a = true
    · simp [List.dropWhile_cons, h, ha, ih]
    · simp [List.dropWhile_cons, h, ha]

theorem dropWhile_append_neg (p : Nat → Bool) (a : Nat) (h : p a = false)
    (u : List Nat) :
    List.dropWhile p (u ++ [a]) = List.dropWhile p u ++ [a] := by
  induction u with
  | nil => simp [List.dropWhile_cons, h]
  | cons b t ih =>
    by_cases hb : p b = true
    · simp [List.dropWhile_cons, hb, ih]
    · simp [List.dropWhile_cons, hb]

theorem dropWhile_shape (p : Nat → Bool) (l : List Nat) :
    List.dropWhile p l = [] ∨
      ∃ a t, List.dropWhile p l = a :: t ∧ p a = false := by
  induction l with
  | nil => exact Or.inl rfl
  | cons a t ih =>
    by_cases h : p a = true
    · simpa [List.dropWhile_cons, h] using ih
    · exact Or.inr ⟨a, t, by simp [List.dropWhile_cons, h], by simpa using h⟩

theorem ltrim_idem (s : PyStr) : ltrim (ltrim s) = ltrim s :=
  dropWhile_dropWhile isPySpace s

theorem rtrim_idem (s : PyStr) : rtrim (rtrim s) = rtrim s := by
  simp [rtrim, dropWhile_dropWhile]

theorem rtrim_cons_neg (a : Nat) (h : isPySpace a = false) (t : PyStr) :
    rtrim (a :: t) = a :: rtrim t := by
  simp only [rtrim, List.reverse_cons]
  rw [dropWhile_append_neg isPySpace a h]
  simp

theorem pstrip_idem (s : PyStr) : pstrip (pstrip s) = pstrip s := by
  rcases dropWhile_shape isPySpace s with h | ⟨a, t, h, ha⟩
  · simp [pstrip, ltrim, h, rtrim]
  · have hs : pstrip s = a :: rtrim t := by
      rw [pstrip, ltrim, h, rtrim_cons_neg a ha]
    rw [hs, pstrip, ltrim, List.dropWhile_cons, ha]
    simp only [Bool.false_eq_true, if_false]
    rw [rtrim_cons_neg a ha, rtrim_idem]

theorem isPySpace_false_of_ge (m : Nat) (h : 33 ≤ m) : isPySpace m = false := by
  simp only [isPySpace, Bool.or_eq_false_iff, beq_eq_false_iff_ne, ne_eq]
  omega

theorem lowerCode_space (n : Nat) : isPySpace (lowerCode n) = isPySpace n := by
  by_cases h : 65 ≤ n ∧ n ≤ 90
  · rw [lowerCode, if_pos h, isPySpace_false_of_ge _ (by omega),
      isPySpace_false_of_ge _ (by omega)]
  · rw [lowerCode, if_neg h]

theorem ltrim_plower (s : PyStr) : ltrim (plower s) = plower (ltrim s) :=
  dropWhile_map lowerCode isPySpace lowerCode_space s

theorem rtrim_plower (s : PyStr) : rtrim (plower s) = plower (rtrim s) := by
  simp only [rtrim, plower, ← List.map_reverse,
    dropWhile_map lowerCode isPySpace lowerCode_space]

theorem pstrip_plower (s : PyStr) : pstrip (plower s) = plower (pstrip s) := by
  rw [pstrip, pstrip, ltrim_plower, rtrim_plower]

/-- Stripping after lowercasing an already-stripped string changes nothing:
the composite `candidate.lower().strip()` of the source equals
`lower(strip(raw))`. -/
theorem pstrip_plower_pstrip (t : PyStr) :
    pstrip (plower (pstrip t)) = plower (pstrip t) := by
  rw [pstrip_plower, pstrip_idem]

/-! ### Lemmas about de-duplication -/

theorem dedupFirstGo_sublist (xs : List PyStr) :
    ∀ s, (dedupFirstGo s xs).Sublist xs := by
  induction xs with
  | nil => intro s; simp [dedupFirstGo]
  | cons x t ih =>
    intro s
    by_cases h : x ∈ s
    · simpa [dedupFirstGo, h] using (ih s).cons x
    · simpa [dedupFirstGo, h] using (ih (x :: s)).cons₂ x

theorem mem_dedupFirstGo (xs : List PyStr) :
    ∀ s a, a ∈ dedupFirstGo s xs → a ∉ s := by
  induction xs with
  | nil => intro s a ha; simp [dedupFirstGo] at ha
  | cons x t ih =>
    intro s a ha
    by_cases h : x ∈ s
    · rw [dedupFirstGo, if_pos h] at ha
      exact ih s a ha
    · rw [dedupFirstGo, if_neg h] at ha
      rcases List.mem_cons.mp ha with rfl | ha
      · exact h
      · intro hs
        exact ih (x :: s) a ha (List.mem_cons_of_mem x hs)

theorem nodup_dedupFirstGo (xs : List PyStr) :
    ∀ s, (dedupFirstGo s xs).Nodup := by
  induction xs with
  | nil => intro s; simp [dedupFirstGo]
  | cons x t ih =>
    intro s
    by_cases h : x ∈ s
    · rw [dedupFirstGo, if_pos h]; exact ih s
    · rw [dedupFirstGo, if_neg h]
      refine List.nodup_cons.mpr ⟨?_, ih (x :: s)⟩
      intro hx
      exact mem_dedupFirstGo t (x :: s) x hx (List.mem_cons_self x s)

/-! ### Lemmas about the fault behaviour of the collection loops -/

theorem collectParas_append_fault (sf : List (Option PyStr)) :
    ∀ (pr : List (Option PyStr)), (∀ x ∈ pr, x ≠ none) →
      ∀ acc, collectParas (pr ++ none :: sf) acc = ((collectParas pr acc).1, true) := by
  intro pr
  induction pr with
  | nil => intro _ acc; simp [collectParas]
  | cons x t ih =>
    intro h acc
    match x with
    | none => exact absurd rfl (h none (List.mem_cons_self none t))
    | some v =>
      have ht : ∀ y ∈ t, y ≠ none := fun y hy => h y (List.mem_cons_of_mem _ hy)
      by_cases hv : pstrip v = []
      · simpa [collectParas, hv] using ih ht acc
      · simpa [collectParas, hv] using ih ht (acc ++ (pstrip v ++ [32]))

theorem collectParas_clean (pr : List (Option PyStr)) (h : ∀ x ∈ pr, x ≠ none) :
    ∀ acc, (collectParas pr acc).2 = false := by
  induction pr with
  | nil => intro acc; rfl
  | cons x t ih =>
    intro acc
    match x with
    | none => exact absurd rfl (h none (List.mem_cons_self none t))
    | some v =>
      have ht : ∀ y ∈ t, y ≠ none := fun y hy => h y (List.mem_cons_of_mem _ hy)
      by_cases hv : pstrip v = []
      · simpa [collectParas, hv] using ih ht acc
      · simpa [collectParas, hv] using ih ht (acc ++ (pstrip v ++ [32]))

theorem collectImgs_append_fault (sf : List (Option (Option PyStr × Option PyStr))) :
    ∀ pr, (∀ x ∈ pr, x ≠ none) →
      ∀ acc, collectImgs (pr ++ none :: sf) acc = ((collectImgs pr acc).1, true) := by
  intro pr
  induction pr with
  | nil => intro _ acc; simp [collectImgs]
  | cons x t ih =>
    intro h acc
    match x with
    | none => exact absurd rfl (h none (List.mem_cons_self none t))
    | some sd =>
      have ht : ∀ y ∈ t, y ≠ none := fun y hy => h y (List.mem_cons_of_mem _ hy)
      match hor : pyAttrOr sd.1 sd.2 with
      | none => simpa [collectImgs, hor] using ih ht acc
      | some v =>
        by_cases hv : v = []
        · simpa [collectImgs, hor, hv] using ih ht acc
        · by_cases hc : hasSub (pystr "alicdn") (normalize_img_url v) = true
          · simpa [collectImgs, hor, hv, hc] using ih ht (acc ++ [normalize_img_url v])
          · simpa [collectImgs, hor, hv, hc] using ih ht acc

/-! ### Lemmas about the title loop, one attempt, and the retry loop -/

theorem findTitleGo_accept (q : PyStr → Option PyStr) :
    ∀ sels, findTitleGo q sels = [] ∨ acceptTitle (findTitleGo q sels) = true := by
  intro sels
  induction sels with
  | nil => exact Or.inl rfl
  | cons sel rest ih =>
    by_cases h : acceptTitle (safe_query_text q sel) = true
    · exact Or.inr (by rw [findTitleGo, if_pos h]; exact h)
    · rw [findTitleGo, if_neg h]; exact ih

theorem findTitle_accept (q : PyStr → Option PyStr) :
    findTitle q = [] ∨ acceptTitle (findTitle q) = true :=
  findTitleGo_accept q title_selectors

theorem solve_recaptcha_false (env : AttemptEnv) : solve_recaptcha_2captcha env = false := rfl

theorem attemptRun_blocked (env : AttemptEnv) (h1 : env.navFails = false)
    (h2 : detect_recaptcha env.bot1 = true) : attemptRun env = none := by
  rw [attemptRun, if_neg (by simp [h1])]
  rw [if_pos (by simp [h2, solve_recaptcha_false])]

theorem attemptRun_noTitle (env : AttemptEnv) (h : findTitle env.titleQuery = []) :
    attemptRun env = none := by
  rw [attemptRun]
  split
  · rfl
  · split
    · rfl
    · split
      · rfl
      · simp [h]

theorem attemptRun_some_shape (env : AttemptEnv) (r : ExtractionResult)
    (h : attemptRun env = some r) :
    acceptTitle (findTitle env.titleQuery) = true ∧
      r = ⟨clean_text (findTitle env.titleQuery),
           clean_text (descPhase env.containerQ).1, (descPhase env.containerQ).2⟩ := by
  rw [attemptRun] at h
  split at h
  · exact absurd h (by simp)
  · split at h
    · exact absurd h (by simp)
    · split at h
      · exact absurd h (by simp)
      · split at h
        · exact absurd h (by simp)
        · rename_i hne
          rcases findTitle_accept env.titleQuery with he | ha
          · exact absurd he hne
          · exact ⟨ha, (Option.some_injective _ h).symm⟩

theorem attemptRun_success (env : AttemptEnv) (h1 : env.navFails = false)
    (h2 : detect_recaptcha env.bot1 = false) (h3 : detect_recaptcha env.bot2 = false)
    (h4 : findTitle env.titleQuery ≠ []) :
    attemptRun env =
      some ⟨clean_text (findTitle env.titleQuery),
            clean_text (descPhase env.containerQ).1, (descPhase env.containerQ).2⟩ := by
  rw [attemptRun, if_neg (by simp [h1]), if_neg (by simp [h2]), if_neg (by simp [h3])]
  simp [h4]

theorem scrapeGo_result_shape (envs : Nat → AttemptEnv) (maxR : Nat) :
    ∀ r a rot, (scrapeGo envs maxR r a rot).result = empty_result ∨
      ∃ i, attemptRun (envs i) = some (scrapeGo envs maxR r a rot).result := by
  intro r
  induction r with
  | zero => intro a rot; exact Or.inl rfl
  | succ n ih =>
    intro a rot
    rcases h : attemptRun (envs a) with _ | res
    · rw [scrapeGo, h]
      exact ih (a + 1) (if a < maxR then rot + 1 else rot)
    · rw [scrapeGo, h]
      exact Or.inr ⟨a, h⟩

theorem scrapeGo_all_blocked (envs : Nat → AttemptEnv) (maxR : Nat)
    (hall : ∀ i, 1 ≤ i → i ≤ maxR → attemptRun (envs i) = none) :
    ∀ r a rot, 1 ≤ a → a + r = maxR + 1 →
      scrapeGo envs maxR r a rot = ⟨empty_result, rot + (maxR - a), maxR⟩ := by
  intro r
  induction r with
  | zero =>
    intro a rot h1 hsum
    have ha : a = maxR + 1 := by omega
    rw [scrapeGo]
    have : maxR - a = 0 := by omega
    rw [this, Nat.add_zero, ha]
    simp
  | succ n ih =>
    intro a rot h1 hsum
    have haM : a ≤ maxR := by omega
    rw [scrapeGo, hall a h1 haM]
    by_cases hlt : a < maxR
    · rw [if_pos hlt, ih (a + 1) (rot + 1) (by omega) (by omega)]
      have : rot + 1 + (maxR - (a + 1)) = rot + (maxR - a) := by omega
      rw [this]
    · have ha : a = maxR := by omega
      rw [if_neg hlt, ih (a + 1) rot (by omega) (by omega)]
      have h0 : maxR - (a + 1) = 0 := by omega
      have h0' : maxR - a = 0 := by omega
      rw [h0, h0']

/-- `split('#')[0]` ignores everything from the first `#` on: taking up to
the first `#` of `u ++ 35 :: v` equals taking up to the first `#` of `u`
when `u` itself has no `#` (35 is the code point of `#`). -/
theorem takeWhile_no_hash : ∀ u : PyStr, (35 : Nat) ∉ u → ∀ v : PyStr,
    (u ++ 35 :: v).takeWhile (fun c => c != 35) = u.takeWhile (fun c => c != 35) := by
  intro u
  induction u with
  | nil => intro _ v; simp [List.takeWhile_cons]
  | cons a t ih =>
    intro h v
    have ha : a ≠ 35 := by
      intro e
      exact h (by rw [e]; exact List.mem_cons_self _ _)
    have ht : (35 : Nat) ∉ t := fun e => h (List.mem_cons_of_mem _ e)
    have hb : (a != 35) = true := by simpa using ha
    simp only [List.cons_append, List.takeWhile_cons, hb, if_true, ih ht v]

/-- A rendered page whose long title contains both the brand name and a
block keyword, with no structural marker and a clean URL. -/
def pgLongTitle : BotPage :=
  { query := fun _ => false,
    title := pystr "AliExpress Official Store Verify Premium Cordless Drill 2024 Home Improvement Bestseller Deal",
    url := pystr "https://www.aliexpress.com/item/1005006.html" }

/-- A rendered page whose short title carries the keyword `robot`. -/
def pgTitleBlocked : BotPage :=
  { query := fun _ => false,
    title := pystr "Robot Check",
    url := pystr "https://www.aliexpress.com/page" }

/-! ## The claims -/

/-- Claim C1, as stated, is false: the function can terminate with a result
whose title is populated while description and images are both empty — here
a clean attempt whose page has a matching `h1` but no description container
terminates with exactly the partially-populated output the claim rules out,
and that output is not the empty sentinel. -/
theorem c1_counterexample :
    (extract_aliexpress_product (fun _ _ => envPartial)
        (pystr "https://www.aliexpress.com/item/1.html") 3).result =
      ⟨pystr "Cordless Drill 20V", [], []⟩ ∧
    (extract_aliexpress_product (fun _ _ => envPartial)
        (pystr "https://www.aliexpress.com/item/1.html") 3).result ≠ empty_result := by
  decide

/-- Claim C1 (amended): every terminal output is either the canonical empty
sentinel, or the output of a successful attempt, whose title field is the
text normalization of an accepted (non-empty, non-brand) title candidate;
the description and images fields may each be empty or populated. -/
theorem c1_terminal_output_shape (world : PyStr → Nat → AttemptEnv) (url : PyStr)
    (maxR : Nat) :
    (extract_aliexpress_product world url maxR).result = empty_result ∨
      ∃ t, acceptTitle t = true ∧
        (extract_aliexpress_product world url maxR).result.title = clean_text t := by
  rcases scrapeGo_result_shape (world (normalize_target url)) maxR maxR 1 0 with h | ⟨i, hi⟩
  · exact Or.inl h
  · have hs := attemptRun_some_shape _ _ hi
    refine Or.inr ⟨findTitle ((world (normalize_target url)) i).titleQuery, hs.1, ?_⟩
    have hdef : extract_aliexpress_product world url maxR =
        scrapeGo (world (normalize_target url)) maxR maxR 1 0 := rfl
    rw [hdef, hs.2]

/-- Claim C2, as stated, is false: the title heuristic of `detect_recaptcha`
has no length test and no brand-name exemption.  A long title (94
characters) containing both the brand name and the keyword `verify` is
classified as blocked, where the claim says such a page is classified as a
legitimate product page. -/
theorem c2_counterexample :
    hasSub (pystr "aliexpress") (plower pgLongTitle.title) = true ∧
    60 ≤ pgLongTitle.title.length ∧
    hasSub (pystr "verify") (plower pgLongTitle.title) = true ∧
    detect_recaptcha pgLongTitle = true := by
  decide

/-- Claim C2 (amended): when no structural marker fires and the URL carries
no block keyword, the page is classified as blocked exactly when the
lowercased title contains one of the block keywords — title length and
brand presence play no role. -/
theorem c2_title_heuristic (pg : BotPage)
    (hsel : ∀ sel ∈ indicators, pg.query sel = false)
    (hurl : ∀ kw ∈ block_url_keywords, hasSub kw (plower pg.url) = false) :
    detect_recaptcha pg = true ↔
      ∃ kw ∈ block_title_keywords, hasSub kw (plower pg.title) = true := by
  have e1 : indicators.any (fun sel => pg.query sel) = false :=
    List.any_eq_false.mpr (by intro x hx; simp [hsel x hx])
  have e3 : block_url_keywords.any (fun kw => hasSub kw (plower pg.url)) = false :=
    List.any_eq_false.mpr (by intro x hx; simp [hurl x hx])
  rw [detect_recaptcha, e1, e3]
  simp [List.any_eq_true]

/-- Witness for C2: a keyword-bearing title is classified as blocked, via
the amended equivalence at a concrete page. -/
theorem c2_witness : detect_recaptcha pgTitleBlocked = true :=
  (c2_title_heuristic pgTitleBlocked (fun _ _ => rfl) (by decide)).mpr
    ⟨pystr "robot", by decide, by decide⟩

/-- Claim C3: with `max_retries = 3` and every attempt blocked (detection
fires and the keyless CAPTCHA solver reports failure), the orchestrator runs
exactly 3 attempts, issues exactly 2 rotation requests (after attempts 1 and
2, none after the last), and returns the canonical empty sentinel; the model
is a total function, matching that every failure on this path is caught and
converted into a retry rather than an exception. -/
theorem c3_retry_bound (world : PyStr → Nat → AttemptEnv) (url : PyStr)
    (h : ∀ i, 1 ≤ i → i ≤ 3 →
      ((world (normalize_target url)) i).navFails = false ∧
        detect_recaptcha ((world (normalize_target url)) i).bot1 = true) :
    extract_aliexpress_product world url 3 = ⟨empty_result, 2, 3⟩ := by
  have hall : ∀ i, 1 ≤ i → i ≤ 3 → attemptRun ((world (normalize_target url)) i) = none :=
    fun i h1 h2 => attemptRun_blocked _ (h i h1 h2).1 (h i h1 h2).2
  have hrun := scrapeGo_all_blocked (world (normalize_target url)) 3 hall 3 1 0
    (by omega) (by omega)
  have hdef : extract_aliexpress_product world url 3 =
      scrapeGo (world (normalize_target url)) 3 3 1 0 := rfl
  rw [hdef, hrun]

/-- Witness for C3: a concrete world in which every attempt is detected as
blocked yields exactly the sentinel, 2 rotations and 3 attempts. -/
theorem c3_witness :
    extract_aliexpress_product (fun _ _ => envBlocked) (pystr "aliexpress.com/item") 3 =
      ⟨empty_result, 2, 3⟩ :=
  c3_retry_bound _ _ (fun _ _ _ => ⟨rfl, by decide⟩)

/-- Claim C4, as stated, is false in its second half: when the accepted raw
title candidate is pure markup (here the literal text `"<p>"`), `clean_text`
strips it to the empty string while the description survives, so the
function terminates with an empty title and a non-empty description. -/
theorem c4_counterexample :
    attemptRun envMarkupTitle = some ⟨[], pystr "Great product.", []⟩ ∧
    (extract_aliexpress_product (fun _ _ => envMarkupTitle)
        (pystr "https://www.aliexpress.com/item/2.html") 3).result.title = [] ∧
    (extract_aliexpress_product (fun _ _ => envMarkupTitle)
        (pystr "https://www.aliexpress.com/item/2.html") 3).result.description_text =
      pystr "Great product." := by
  decide

/-- Claim C4 (amended): (a) an attempt in which no title locator yields an
acceptable candidate produces no result; (b) if every attempt's locator
chain fails, the orchestrator terminates with the canonical empty sentinel;
(c) any returned result's title is the text normalization of an accepted
(non-empty, non-brand) candidate — so an empty title next to a non-empty
description can arise only when normalization strips a markup-only accepted
candidate to nothing. -/
theorem c4_title_gate :
    (∀ env : AttemptEnv, findTitle env.titleQuery = [] → attemptRun env = none) ∧
    (∀ (world : PyStr → Nat → AttemptEnv) (url : PyStr) (maxR : Nat),
        (∀ i, findTitle ((world (normalize_target url)) i).titleQuery = []) →
        (extract_aliexpress_product world url maxR).result = empty_result) ∧
    (∀ (env : AttemptEnv) (r : ExtractionResult), attemptRun env = some r →
        acceptTitle (findTitle env.titleQuery) = true ∧
          r.title = clean_text (findTitle env.titleQuery)) := by
  refine ⟨attemptRun_noTitle, ?_, ?_⟩
  · intro world url maxR hall
    rcases scrapeGo_result_shape (world (normalize_target url)) maxR maxR 1 0 with h | ⟨i, hi⟩
    · exact h
    · rw [attemptRun_noTitle _ (hall i)] at hi
      cases hi
  · intro env r h
    have hs := attemptRun_some_shape env r h
    exact ⟨hs.1, by rw [hs.2]⟩

/-- Witness for C4: a world with no matching title locator ends in the empty
sentinel, and a concrete successful attempt's title is the normalization of
its accepted candidate. -/
theorem c4_witness :
    (extract_aliexpress_product (fun _ _ => envNoTitle) (pystr "example.com") 3).result =
      empty_result ∧
    acceptTitle (findTitle envPartial.titleQuery) = true ∧
    (⟨pystr "Cordless Drill 20V", [], []⟩ : ExtractionResult).title =
      clean_text (findTitle envPartial.titleQuery) :=
  ⟨c4_title_gate.2.1 _ _ 3 (fun _ => by decide),
   (c4_title_gate.2.2 envPartial ⟨pystr "Cordless Drill 20V", [], []⟩ (by decide)).1,
   (c4_title_gate.2.2 envPartial ⟨pystr "Cordless Drill 20V", [], []⟩ (by decide)).2⟩

/-- Claim C5, as stated, is false: the context created for an attempt uses a
hard-coded user agent and locale, passes no viewport and no timezone, and is
therefore identical — not independently randomized — across attempts. -/
theorem c5_counterexample :
    new_context_identity 1 = new_context_identity 2 ∧
    (new_context_identity 1).viewport = none ∧
    (new_context_identity 1).timezone_id = none :=
  ⟨rfl, rfl, rfl⟩

/-- Claim C5 (amended): the browsing-context identity fields (user agent,
locale, Accept-Language, viewport, timezone) are fixed constants, identical
on every attempt; only the network identity changes via circuit rotation. -/
theorem c5_fixed_identity : ∀ i j : Nat, new_context_identity i = new_context_identity j :=
  fun _ _ => rfl

/-- Claim C6: image URL normalization maps a protocol-relative URL to its
secure form, prefixes the site origin onto a root-relative URL, and leaves
an absolute URL unchanged. -/
theorem c6_normalize_img_url :
    normalize_img_url (pystr "//cdn.example/x.jpg") = pystr "https://cdn.example/x.jpg" ∧
    normalize_img_url (pystr "/img/x.jpg") = pystr "https://www.aliexpress.com/img/x.jpg" ∧
    normalize_img_url (pystr "https://cdn.example/x.jpg") = pystr "https://cdn.example/x.jpg" := by
  decide

/-- Claim C7: de-duplication preserves first-seen order and removes later
duplicates — in general the output is a duplicate-free sublist of the
input, and on the locator output `[A, B, A, C]` (with `A`, `B`, `C` pairwise
distinct) it returns `[A, B, C]`. -/
theorem c7_dedup :
    (∀ xs : List PyStr, (pyDedup xs).Sublist xs ∧ (pyDedup xs).Nodup) ∧
    (∀ A B C : PyStr, B ≠ A → C ≠ A → C ≠ B → pyDedup [A, B, A, C] = [A, B, C]) := by
  constructor
  · intro xs
    exact ⟨dedupFirstGo_sublist xs [], nodup_dedupFirstGo xs []⟩
  · intro A B C h1 h2 h3
    simp [pyDedup, dedupFirstGo, h1, h2, h3]

/-- Witness for C7: the concrete instance of the de-duplication property. -/
theorem c7_witness :
    pyDedup [pystr "A", pystr "B", pystr "A", pystr "C"] =
      [pystr "A", pystr "B", pystr "C"] :=
  c7_dedup.2 _ _ _ (by decide) (by decide) (by decide)

/-- Claim C8: a title candidate (the stripped text a locator produced) is
accepted iff it is non-empty and not equal, case-insensitively, to the bare
brand name `aliexpress`. -/
theorem c8_title_acceptance (t : PyStr) :
    acceptTitle (pstrip t) = true ↔
      (pstrip t ≠ [] ∧ plower (pstrip t) ≠ pystr "aliexpress") := by
  rw [acceptTitle, pstrip_plower_pstrip]
  simp

/-- Claim C9: once a title is accepted, DOM faults in the description phase
are swallowed and the attempt still returns successfully: (a) a clean
attempt with an accepted title returns whatever the description phase
produced, for every container outcome including faulting ones; (b) a fault
while locating the container yields empty description and images; (c) a
fault during paragraph collection keeps the text gathered before the fault
and no images; (d) a fault during image collection keeps the paragraph text
and the images gathered before the fault (in that case un-deduplicated,
since de-duplication runs after the loop that faulted). -/
theorem c9_fault_swallowing :
    (∀ env : AttemptEnv, env.navFails = false → detect_recaptcha env.bot1 = false →
        detect_recaptcha env.bot2 = false → findTitle env.titleQuery ≠ [] →
        attemptRun env = some ⟨clean_text (findTitle env.titleQuery),
          clean_text (descPhase env.containerQ).1, (descPhase env.containerQ).2⟩) ∧
    descPhase none = ([], []) ∧
    (∀ pr sf ap imgs, (∀ x ∈ pr, x ≠ none) →
        descPhase (some (some ⟨pr ++ none :: sf, ap, imgs⟩)) =
          ((collectParas pr []).1, [])) ∧
    (∀ dp pr sf ap, (∀ x ∈ dp, x ≠ none) → (collectParas dp []).1 ≠ [] →
        (∀ x ∈ pr, x ≠ none) →
        descPhase (some (some ⟨dp, ap, pr ++ none :: sf⟩)) =
          ((collectParas dp []).1, (collectImgs pr []).1)) := by
  refine ⟨attemptRun_success, rfl, ?_, ?_⟩
  · intro pr sf ap imgs h
    simp only [descPhase]
    rw [collectParas_append_fault sf pr h []]
    simp
  · intro dp pr sf ap hdp hne hpr
    have h1 : (collectParas dp []).2 = false := collectParas_clean dp hdp []
    simp only [descPhase]
    rw [collectImgs_append_fault sf pr hpr []]
    simp [h1, hne]

/-- Witness for C9: a concrete attempt whose image loop faults on its third
element still succeeds, returning the accepted title, the gathered
description, and the two images collected before the fault — kept
un-deduplicated even though they are equal. -/
theorem c9_witness :
    attemptRun envFaulty = some ⟨pystr "Gadget Pro", pystr "Intro text",
      [pystr "https://ae01.alicdn.com/a.jpg", pystr "https://ae01.alicdn.com/a.jpg"]⟩ := by
  rw [c9_fault_swallowing.1 envFaulty rfl (by decide) (by decide) (by decide)]
  decide

/-- Claim C10: target normalization drops everything from the first `#`
onward and trims whitespace; the scheme is prefixed only when the remainder
does not start with the four characters `http` — a plain `http://` URL is
kept insecure, and any string beginning with `http` is used unchanged. -/
theorem c10_target_normalization :
    (∀ u v : PyStr, (35 : Nat) ∉ u →
        normalize_target (u ++ 35 :: v) = normalize_target u) ∧
    normalize_target (pystr " http://example.com/item#reviews") =
      pystr "http://example.com/item" ∧
    normalize_target (pystr "www.aliexpress.com/item/1.html") =
      pystr "https://www.aliexpress.com/item/1.html" ∧
    normalize_target (pystr "httpx.example/page") = pystr "httpx.example/page" := by
  refine ⟨?_, by decide, by decide, by decide⟩
  intro u v h
  simp only [normalize_target]
  rw [takeWhile_no_hash u h v]

/-- Witness for C10: fragment stripping at a concrete URL. -/
theorem c10_witness :
    normalize_target (pystr "ab" ++ 35 :: pystr "cd") = normalize_target (pystr "ab") :=
  c10_target_normalization.1 (pystr "ab") (pystr "cd") (by decide)

example : attemptRun envBlocked = none := by decide

example : attemptRun envNoTitle = none := by decide

example : attemptRun envPartial = some ⟨pystr "Cordless Drill 20V", [], []⟩ := by decide

example : attemptRun envMarkupTitle = some ⟨[], pystr "Great product.", []⟩ := by decide

example : attemptRun envFaulty =
    some ⟨pystr "Gadget Pro", pystr "Intro text",
      [pystr "https://ae01.alicdn.com/a.jpg", pystr "https://ae01.alicdn.com/a.jpg"]⟩ := by decide

example : extract_aliexpress_product (fun _ _ => envBlocked) (pystr "aliexpress.com/item") 3 =
    ⟨empty_result, 2, 3⟩ := by decide

example : extract_aliexpress_product (fun _ _ => envPartial)
    (pystr "https://www.aliexpress.com/item/1.html") 3 =
    ⟨⟨pystr "Cordless Drill 20V", [], []⟩, 0, 1⟩ := by decide

example : normalize_img_url (pystr "//cdn.example/x.jpg") = pystr "https://cdn.example/x.jpg" := by
  decide

example : clean_text (pystr "<p>Hello   World</p>") = pystr "Hello World" := by decide

example : clean_text (pystr "<p>") = [] := by decide
